import Mathlib

/-!
Shallow embedding of the `log` package (a zap-based structured-logging
facade) and verification of its specification claims.

Modelling conventions:
* `zapcore.Level` is an integer type; the zap numeric values are used
  (Debug = -1 … Fatal = 5).  An atomic level cell `zap.AtomicLevel` is a
  reference into a heap of level cells (`LogState.store`), so that the
  sharing of one atomic cell between several cores — and the global
  `loglv` variable — is modelled faithfully.
* A `zap.Logger` core is a `ZapLogger`: its level enabler (the gate
  reference), its write syncer flattened to the list of component sinks,
  its encoder configuration, and the fields accumulated by `With`.
* A log call is modelled by the list of emissions it produces: one
  `(Sink, Record)` pair per sink of the targeted core when the gate
  enables the severity, and nothing at all otherwise ("zero bytes").
  The process-abort side effects of Panic/Fatal happen after emission and
  are not modelled.
* Go map iteration order is unspecified; `range` over a `Fields` map is
  modelled by quantifying over every permutation of the map's entries
  (`isMapIterOf`).
* The filesystem is an oracle `FS`: for a directory, `none` means
  `os.MkdirAll` succeeds and `some e` means it fails with error text `e`.
-/

namespace LogFacade

/-- `zapcore.Level` (an int8 in zap; overflow never reached here). -/
abbrev Level := Int

def DebugLevel : Level := -1
def InfoLevel : Level := 0
def WarnLevel : Level := 1
def ErrorLevel : Level := 2
def DPanicLevel : Level := 3
def PanicLevel : Level := 4
def FatalLevel : Level := 5

/-- Dynamically-typed Go value (`interface{}`), restricted to the shapes
the claims exercise: integers, strings, booleans and slices. -/
inductive GoValue where
  | int (n : Int)
  | str (s : String)
  | boolean (b : Bool)
  | slice (xs : List GoValue)
deriving Repr

/-- A zap field: key/value pair (`zapcore.Field`). -/
abbrev Field := String × GoValue

/-- The package's `Fields` type is `map[string]interface{}`.  A map value
is modelled by its entry list in binding (insertion) order; iteration
order is separate, see `isMapIterOf`. -/
abbrev Fields := List (String × GoValue)

/-- `zap.Any` / `zap.String` / … : build a field from a key and value. -/
def zapAny (k : String) (v : GoValue) : Field := (k, v)

/-- `convertFields` maps `zap.Any` over one iteration of the map.  The
iteration sequence `iter` is supplied by the Go runtime; any permutation
of the map's entries is possible (`isMapIterOf`). -/
def convertFields (iter : Fields) : List Field :=
  iter.map (fun kv => zapAny kv.1 kv.2)

/-- Go `range` over a map visits every entry exactly once, in an
unspecified order: `iter` is a possible iteration of map `f` iff it is a
permutation of `f`'s entries. -/
def isMapIterOf (iter f : Fields) : Prop := List.Perm iter f

/-- A write syncer destination: console streams, a rolling file at a
path, or the nil `WriteSyncer` that `newRollingFile` returns when
directory creation fails. -/
inductive Sink where
  | stdout
  | stderr
  | consoleStream (id : Nat)
  | file (path : String)
  | nilSink
deriving Repr, DecidableEq

/-- One log record as handed to the encoder: severity, message and the
final field sequence (`With`-bound fields followed by call-site fields).
Timestamps and caller sites are environment inputs, not modelled. -/
structure Record where
  sev : Level
  msg : String
  fields : List Field
deriving Repr

/-- One encoded record written to one sink. -/
abbrev Emission := Sink × Record

/-- `zapcore.LevelEncoder`: lowercase or capital rendering. -/
inductive LevelEnc where
  | lowercase
  | capital
deriving Repr, DecidableEq

/-- Time-format choice made by `newZapLogger`. -/
inductive TimeEnc where
  | consoleTime
  | shortTime
deriving Repr, DecidableEq

/-- Encoder configuration as assembled by `newZapLogger`. -/
structure Encoder where
  json : Bool
  separator : String
  encodeLevel : LevelEnc
  encodeTime : TimeEnc
deriving Repr, DecidableEq

/-- One `zap.Logger` core: gate cell reference, sinks, encoder, caller
options, and the fields accumulated by `With`. -/
structure ZapLogger where
  gateRef : Nat
  sinks : List Sink
  enc : Encoder
  caller : Bool
  callerSkip : Int
  boundFields : List Field
deriving Repr

/-- `LogEntry`: the info-channel and error-channel cores.  The sugared
loggers in the Go struct are views of the same cores and are not
separate state. -/
structure LogEntry where
  infoLogger : ZapLogger
  errorLogger : ZapLogger
deriving Repr

/-- `zap.Logger.With`: clone the core with the fields appended. -/
def zWith (zl : ZapLogger) (args : List Field) : ZapLogger :=
  { zl with boundFields := zl.boundFields ++ args }

/-- `newLogEntry`: child LogEntry with one map iteration's fields bound
to both channels. -/
def newLogEntry (logEntry : LogEntry) (iter : Fields) : LogEntry :=
  let args := convertFields iter
  { infoLogger := zWith logEntry.infoLogger args
    errorLogger := zWith logEntry.errorLogger args }

/-- `LogEntry.WithFields` (same construction as `newLogEntry`). -/
def LogEntry.WithFields (le : LogEntry) (iter : Fields) : LogEntry :=
  let args := convertFields iter
  { infoLogger := zWith le.infoLogger args
    errorLogger := zWith le.errorLogger args }

/-- Process-wide mutable state: the heap of atomic level cells, the
global `loglv` variable (a cell reference), and `DefaultZapLogger`. -/
structure LogState where
  store : List Level
  loglv : Nat
  defaultZapLogger : LogEntry
deriving Repr

/-- Read an atomic level cell (`AtomicLevel.Level()`). -/
def atomicGet (st : LogState) (ref : Nat) : Level :=
  st.store.getD ref InfoLevel

/-- `AtomicLevel.Enabled(s)` for the cell `ref`: true iff `s` is at or
above the stored gate level. -/
def atomicEnabled (st : LogState) (ref : Nat) (s : Level) : Prop :=
  atomicGet st ref ≤ s

instance (st : LogState) (ref : Nat) (s : Level) :
    Decidable (atomicEnabled st ref s) := by
  unfold atomicEnabled; infer_instance

/-- `GetLevel`: read the global `loglv` cell. -/
def GetLevel (st : LogState) : Level := atomicGet st st.loglv

/-- `SetLevel`: write the global `loglv` cell. -/
def SetLevel (l : Level) (st : LogState) : LogState :=
  { st with store := st.store.set st.loglv l }

/-- One leveled call on a core: if the gate enables the severity, every
sink of the core receives the encoded record (bound fields first, then
call fields); otherwise nothing is written at all. -/
def zlog (st : LogState) (zl : ZapLogger) (sev : Level) (msg : String)
    (callFields : List Field) : List Emission :=
  if atomicEnabled st zl.gateRef sev then
    zl.sinks.map (fun s => (s, ⟨sev, msg, zl.boundFields ++ callFields⟩))
  else []

/-- The `Config` struct.  `ConsoleInfoStream` / `ConsoleErrorStream` are
`*os.File` pointers: `none` models `nil`; `some id` a user stream.
`LevelEncoder` is `none` when the Go field is left nil. -/
structure Config where
  Level : Level
  EncodeLogsAsJson : Bool
  FileLoggingEnabled : Bool
  ConsoleLoggingEnabled : Bool
  CallerEnabled : Bool
  CallerSkip : Int
  Directory : String
  Filename : String
  MaxSize : Int
  MaxBackups : Int
  MaxAge : Int
  ConsoleInfoStream : Option Nat
  ConsoleErrorStream : Option Nat
  ConsoleSeparator : String
  LevelEncoder : Option LevelEnc
deriving Repr

/-- `defaultConfig`, used for the initial `DefaultZapLogger` only. -/
def defaultConfig : Config :=
  { Level := DebugLevel
    EncodeLogsAsJson := false
    FileLoggingEnabled := false
    ConsoleLoggingEnabled := false
    CallerEnabled := true
    CallerSkip := 1
    Directory := ""
    Filename := ""
    MaxSize := 0
    MaxBackups := 0
    MaxAge := 0
    ConsoleInfoStream := none
    ConsoleErrorStream := none
    ConsoleSeparator := "|"
    LevelEncoder := some LevelEnc.lowercase }

/-- `newZapLogger`: build the encoder configuration, allocate a fresh
atomic level cell at `config.Level`, point the global `loglv` at it when
building the default logger, and wire both cores to that one cell.
Returns the new `LogEntry` together with the updated state (heap grown
by one cell; `loglv` possibly redirected). -/
def newZapLogger (config : Config) (infoOutput errOutput : List Sink)
    (isDefaultLogger : Bool) (st : LogState) : LogEntry × LogState :=
  let encodeLevel := config.LevelEncoder.getD LevelEnc.lowercase
  let encodeTime :=
    if !config.EncodeLogsAsJson then TimeEnc.consoleTime else TimeEnc.shortTime
  let enc : Encoder :=
    { json := config.EncodeLogsAsJson
      separator := config.ConsoleSeparator
      encodeLevel := encodeLevel
      encodeTime := encodeTime }
  let ref := st.store.length
  let store := st.store ++ [config.Level]
  let le : LogEntry :=
    { infoLogger :=
        { gateRef := ref, sinks := infoOutput, enc := enc
          caller := config.CallerEnabled, callerSkip := config.CallerSkip
          boundFields := [] }
      errorLogger :=
        { gateRef := ref, sinks := errOutput, enc := enc
          caller := config.CallerEnabled, callerSkip := config.CallerSkip
          boundFields := [] } }
  (le, { st with store := store
                 loglv := if isDefaultLogger then ref else st.loglv })

/-- The package-initialisation state: `DefaultZapLogger =
newZapLogger(defaultConfig, os.Stdout, os.Stderr, true)` applied to an
empty heap. -/
def initState : LogState :=
  let p := newZapLogger defaultConfig [Sink.stdout] [Sink.stderr] true
    { store := [], loglv := 0
      defaultZapLogger :=
        { infoLogger :=
            { gateRef := 0, sinks := [], enc :=
                { json := false, separator := "", encodeLevel := LevelEnc.lowercase
                  encodeTime := TimeEnc.consoleTime }
              caller := false, callerSkip := 0, boundFields := [] }
          errorLogger :=
            { gateRef := 0, sinks := [], enc :=
                { json := false, separator := "", encodeLevel := LevelEnc.lowercase
                  encodeTime := TimeEnc.consoleTime }
              caller := false, callerSkip := 0, boundFields := [] } } }
  { p.2 with defaultZapLogger := p.1 }

/-- `Debugv`: field-list call at Debug on the default info channel. -/
def Debugv (st : LogState) (msg : String) (fields : List Field) : List Emission :=
  zlog st st.defaultZapLogger.infoLogger DebugLevel msg fields

/-- `Infov`: field-list call at Info on the default info channel. -/
def Infov (st : LogState) (msg : String) (fields : List Field) : List Emission :=
  zlog st st.defaultZapLogger.infoLogger InfoLevel msg fields

/-- `Warnv`: field-list call at Warn on the default error channel. -/
def Warnv (st : LogState) (msg : String) (fields : List Field) : List Emission :=
  zlog st st.defaultZapLogger.errorLogger WarnLevel msg fields

/-- `Errorv`: field-list call at Error on the default error channel. -/
def Errorv (st : LogState) (msg : String) (fields : List Field) : List Emission :=
  zlog st st.defaultZapLogger.errorLogger ErrorLevel msg fields

/-- `Panicv`: emission part of the Panic call (the subsequent panic is
control flow outside the model). -/
def Panicv (st : LogState) (msg : String) (fields : List Field) : List Emission :=
  zlog st st.defaultZapLogger.errorLogger PanicLevel msg fields

/-- `Fatalv`: emission part of the Fatal call (process exit follows,
outside the model). -/
def Fatalv (st : LogState) (msg : String) (fields : List Field) : List Emission :=
  zlog st st.defaultZapLogger.errorLogger FatalLevel msg fields

/-- Package-level `WithFields`: bind one iteration of the map to the
current default logger. -/
def WithFields (st : LogState) (iter : Fields) : LogEntry :=
  newLogEntry st.defaultZapLogger iter

/-- Package-level `WithField(k, v)`: a one-entry map has exactly one
iteration order. -/
def WithField (st : LogState) (k v : String) : LogEntry :=
  newLogEntry st.defaultZapLogger [(k, GoValue.str v)]

/-- `DefaultFieldName` used by `With`. -/
def DefaultFieldName : String := "-"

/-- Package-level `With(data)`: bind `data` under the default key. -/
def With (st : LogState) (data : String) : LogEntry :=
  WithField st DefaultFieldName data

/-- `strings.Replace(s, ".log", "", -1)` on the character list: remove
every non-overlapping ".log" occurrence, scanning left to right. -/
def stripDotLog : List Char → List Char
  | '.' :: 'l' :: 'o' :: 'g' :: rest => stripDotLog rest
  | c :: rest => c :: stripDotLog rest
  | [] => []

/-- The same on `String`. -/
def stripDotLogS (s : String) : String := String.mk (stripDotLog s.toList)

/-- `getNameByLogLevel`: strip every `".log"` occurrence from a
non-empty filename and append an underscore, then suffix `error.log`
for the Error level and `info.log` for every other level. -/
def getNameByLogLevel (filename : String) (level : Level) : String :=
  let name := if filename ≠ "" then stripDotLogS filename ++ "_" else ""
  if level = ErrorLevel then name ++ "error.log" else name ++ "info.log"

/-- Go `path.Join` restricted to already-clean components (no `Clean`
normalisation is needed for the paths built here). -/
def pathJoin (dir name : String) : String :=
  if dir = "" then name else dir ++ "/" ++ name

/-- Filesystem oracle for `os.MkdirAll`: `none` means the directory is
created (or exists), `some e` means creation fails with error text `e`. -/
abbrev FS := String → Option String

/-- `newRollingFile`: on a directory-creation failure, self-log an error
through the current default logger and return the nil write syncer;
otherwise return the lumberjack sink at the joined path.  (MaxSize /
MaxAge / MaxBackups configure rotation, which happens inside the
external lumberjack library.) -/
def newRollingFile (dir filename : String) (fs : FS) (st : LogState) :
    Sink × List Emission :=
  match fs dir with
  | some e =>
      (Sink.nilSink,
        Errorv st "failed create log directory"
          [zapAny "error" (GoValue.str e), zapAny "path" (GoValue.str dir)])
  | none => (Sink.file (pathJoin dir filename), [])

/-- The nine fields `DeclareLogger` attaches to its
"logging configured" record. -/
def declareFields (config : Config) : List Field :=
  [zapAny "fileLogging" (GoValue.boolean config.FileLoggingEnabled),
   zapAny "consoleLogging" (GoValue.boolean config.ConsoleLoggingEnabled),
   zapAny "caller" (GoValue.boolean config.CallerEnabled),
   zapAny "callerSkip" (GoValue.int config.CallerSkip),
   zapAny "jsonLogOutput" (GoValue.boolean config.EncodeLogsAsJson),
   zapAny "logDirectory" (GoValue.str config.Directory),
   zapAny "maxSizeMB" (GoValue.int config.MaxSize),
   zapAny "maxBackups" (GoValue.int config.MaxBackups),
   zapAny "maxAgeInDays" (GoValue.int config.MaxAge)]

/-- The console sink the info channel gets: the configured stream, or
`os.Stdout` when the config field is nil. -/
def consoleInfoSink (config : Config) : Sink :=
  match config.ConsoleInfoStream with
  | some id => Sink.consoleStream id
  | none => Sink.stdout

/-- The console sink the error channel gets: the configured stream, or
`os.Stderr` when the config field is nil. -/
def consoleErrSink (config : Config) : Sink :=
  match config.ConsoleErrorStream with
  | some id => Sink.consoleStream id
  | none => Sink.stderr

/-- Result of `Configure`: the returned `error`, the emissions produced
while configuring (rolling-file self-logs, then the two `DeclareLogger`
records), and the final process state. -/
structure ConfigureOut where
  err : Option String
  emissions : List Emission
  state : LogState
deriving Repr

/-- `Configure`: build the writer lists (rolling files when file logging
is enabled, else console forced on; console streams when console logging
is enabled), swap in a new default logger (which also redirects the
global `loglv`), log the configuration once per channel, and return nil. -/
def Configure (config : Config) (fs : FS) (st : LogState) : ConfigureOut :=
  let fileStep :=
    if config.FileLoggingEnabled then
      let infoLog := newRollingFile config.Directory
        (getNameByLogLevel config.Filename InfoLevel) fs st
      let errLog := newRollingFile config.Directory
        (getNameByLogLevel config.Filename ErrorLevel) fs st
      (([infoLog.1], [errLog.1]), infoLog.2 ++ errLog.2, config)
    else
      (([], []), [], { config with ConsoleLoggingEnabled := true })
  let config := fileStep.2.2
  let rfEmissions := fileStep.2.1
  let infoWriters :=
    if config.ConsoleLoggingEnabled then
      fileStep.1.1 ++ [consoleInfoSink config]
    else fileStep.1.1
  let errWriters :=
    if config.ConsoleLoggingEnabled then
      fileStep.1.2 ++ [consoleErrSink config]
    else fileStep.1.2
  let built := newZapLogger config infoWriters errWriters true st
  let st1 := { built.2 with defaultZapLogger := built.1 }
  let declInfo := Infov st1 "logging configured" (declareFields config)
  let declErr := Errorv st1 "logging configured" (declareFields config)
  { err := none
    emissions := rfEmissions ++ declInfo ++ declErr
    state := st1 }

/-- Result of `NewLogEntry`: the new entry, the updated state (heap grown
by one gate cell; default logger and `loglv` untouched), and the two
`DeclareLogger` emissions made through the new entry itself. -/
structure NewLogEntryOut where
  entry : LogEntry
  state : LogState
  emissions : List Emission
deriving Repr

/-- `NewLogEntry`: like `Configure` but the new logger is returned
instead of installed; on the no-file path `os.Stdout`/`os.Stderr` are
appended directly, and console streams are never consulted. -/
def NewLogEntry (config : Config) (fs : FS) (st : LogState) : NewLogEntryOut :=
  let fileStep :=
    if config.FileLoggingEnabled then
      let infoLog := newRollingFile config.Directory
        (getNameByLogLevel config.Filename InfoLevel) fs st
      let errLog := newRollingFile config.Directory
        (getNameByLogLevel config.Filename ErrorLevel) fs st
      (([infoLog.1], [errLog.1]), infoLog.2 ++ errLog.2, config)
    else
      (([Sink.stdout], [Sink.stderr]), [],
        { config with ConsoleLoggingEnabled := true })
  let config := fileStep.2.2
  let built := newZapLogger config fileStep.1.1 fileStep.1.2 false st
  let logEntry := built.1
  let st1 := built.2
  let declInfo := zlog st1 logEntry.infoLogger InfoLevel
    "logging configured" (declareFields config)
  let declErr := zlog st1 logEntry.errorLogger ErrorLevel
    "logging configured" (declareFields config)
  { entry := logEntry, state := st1
    emissions := fileStep.2.1 ++ declInfo ++ declErr }

/-- `zapcore.Level.String()`. -/
def levelString (l : Level) : String :=
  if l = DebugLevel then "debug"
  else if l = InfoLevel then "info"
  else if l = WarnLevel then "warn"
  else if l = ErrorLevel then "error"
  else if l = DPanicLevel then "dpanic"
  else if l = PanicLevel then "panic"
  else if l = FatalLevel then "fatal"
  else "Level(" ++ toString l ++ ")"

/-- `zap.Any("level", level)`: a `zapcore.Level` value implements
`fmt.Stringer`, so the field carries its textual rendering. -/
def levelField (l : Level) : Field := zapAny "level" (GoValue.str (levelString l))

/-- `AtLevel`: dispatch on the exact level; every level outside the six
switch cases falls to the default branch, which warns about the unknown
level and then logs the message at Warn. -/
def AtLevel (st : LogState) (level : Level) (msg : String)
    (fields : List Field) : List Emission :=
  if level = DebugLevel then Debugv st msg fields
  else if level = PanicLevel then Panicv st msg fields
  else if level = ErrorLevel then Errorv st msg fields
  else if level = WarnLevel then Warnv st msg fields
  else if level = InfoLevel then Infov st msg fields
  else if level = FatalLevel then Fatalv st msg fields
  else
    Warnv st "Logging at unkown level" [levelField level] ++
    Warnv st msg fields

/-- A value stored in a Go context: a `*LogEntry`, or a value of some
other dynamic type (on which the `.(*LogEntry)` assertion fails). -/
inductive CtxVal where
  | logger (le : LogEntry)
  | other (tag : Nat)

/-- A `context.Context` modelled as its chain of `WithValue` frames,
newest first.  Keys are drawn from `Nat`; the package's unexported
`loggerKey = key(1)` is modelled as key 1. -/
abbrev GoContext := List (Nat × CtxVal)

/-- The package's private context key. -/
def loggerKey : Nat := 1

/-- `context.WithValue`: derive a context with one more frame. -/
def contextWithValue (ctx : GoContext) (k : Nat) (v : CtxVal) : GoContext :=
  (k, v) :: ctx

/-- `ctx.Value(k)`: innermost frame for `k`, if any. -/
def ctxValue (ctx : GoContext) (k : Nat) : Option CtxVal :=
  (ctx.find? (fun kv => kv.1 = k)).map (fun kv => kv.2)

/-- `LogEntry.ContextWithLogger`: attach this entry under `loggerKey`. -/
def LogEntry.ContextWithLogger (le : LogEntry) (ctx : GoContext) : GoContext :=
  contextWithValue ctx loggerKey (CtxVal.logger le)

/-- `FromContext`: the attached `*LogEntry` when the value exists and the
type assertion succeeds, else the current default logger. -/
def FromContext (st : LogState) (ctx : GoContext) : LogEntry :=
  match ctxValue ctx loggerKey with
  | some (CtxVal.logger logger) => logger
  | _ => st.defaultZapLogger

/-- Go type name of a `GoValue`, as `fmt` prints it in diagnostics. -/
def goTypeName : GoValue → String
  | GoValue.int _ => "int"
  | GoValue.str _ => "string"
  | GoValue.boolean _ => "bool"
  | GoValue.slice _ => "[]interface \x7b\x7d"

mutual

/-- `%v` rendering of a value (Go `fmt`): numbers and booleans as
written, strings bare, slices bracketed and space-separated. -/
def renderV : GoValue → String
  | GoValue.int n => toString n
  | GoValue.str s => s
  | GoValue.boolean b => if b then "true" else "false"
  | GoValue.slice xs => "[" ++ renderVList xs ++ "]"

/-- Space-joined `%v` rendering of slice elements. -/
def renderVList : List GoValue → String
  | [] => ""
  | [x] => renderV x
  | x :: xs => renderV x ++ " " ++ renderVList xs

end

mutual

/-- `%d` rendering of a value (Go `fmt`): integers in decimal; a slice
has the verb applied elementwise inside brackets; non-numeric values
produce the `%!d(type=value)` bad-verb notice. -/
def renderD : GoValue → String
  | GoValue.int n => toString n
  | GoValue.str s => "%!d(string=" ++ s ++ ")"
  | GoValue.boolean b => "%!d(bool=" ++ (if b then "true" else "false") ++ ")"
  | GoValue.slice xs => "[" ++ renderDList xs ++ "]"

/-- Space-joined `%d` rendering of slice elements. -/
def renderDList : List GoValue → String
  | [] => ""
  | [x] => renderD x
  | x :: xs => renderD x ++ " " ++ renderDList xs

end

/-- One `EXTRA` item of Go `fmt`'s trailing-arguments notice. -/
def extraItem (v : GoValue) : String := goTypeName v ++ "=" ++ renderV v

/-- Core of `fmt.Sprintf` on the fragment the package exercises: literal
text, the `%d` verb, the `%%` escape, the `%!d(MISSING)` notice for a
verb without an argument, and the `%!(EXTRA ...)` notice for arguments
without a verb. -/
def sprintfAux : List Char → List GoValue → String
  | [], [] => ""
  | [], a :: args =>
      "%!(EXTRA " ++ String.intercalate ", " ((a :: args).map extraItem) ++ ")"
  | '%' :: 'd' :: rest, [] => "%!d(MISSING)" ++ sprintfAux rest []
  | '%' :: 'd' :: rest, a :: args => renderD a ++ sprintfAux rest args
  | '%' :: '%' :: rest, args => "%" ++ sprintfAux rest args
  | c :: rest, args => String.singleton c ++ sprintfAux rest args

/-- Modelled from Go's `fmt.Sprintf`, restricted to the `%d` verb and
literal text — the fragment the formatted-call claims use. -/
def sprintf (template : String) (args : List GoValue) : String :=
  sprintfAux template.toList args

/-- Message built by the package-level `Debugf`, which spreads the
variadic arguments: `DefaultZapLogger.infoSugared.Debugf(template,
args...)`. -/
def DebugfMsg (template : String) (args : List GoValue) : String :=
  sprintf template args

/-- Message built by the method `LogEntry.Debugf`, which passes the
variadic slice as a single argument: `le.infoSugared.Debugf(template,
args)`. -/
def LogEntry.DebugfMsg (template : String) (args : List GoValue) : String :=
  sprintf template [GoValue.slice args]

/-- Package-level `Debugf`: format with the arguments spread, then log
at Debug on the default info channel with no extra fields. -/
def Debugf (st : LogState) (template : String) (args : List GoValue) :
    List Emission :=
  zlog st st.defaultZapLogger.infoLogger DebugLevel (DebugfMsg template args) []

/-- Method `LogEntry.Debugf`: format with the slice passed as one
argument, then log at Debug on the entry's info channel. -/
def LogEntry.Debugf (st : LogState) (le : LogEntry) (template : String)
    (args : List GoValue) : List Emission :=
  zlog st le.infoLogger DebugLevel (LogEntry.DebugfMsg template args) []

/-! ### Supporting lemmas on the level-cell heap -/

lemma getD_set_self (l : List Level) (i : Nat) (x d : Level)
    (h : i < l.length) : (l.set i x).getD i d = x := by
  simp [List.getD_eq_getElem?_getD, List.getElem?_set_self', h,
    List.getElem?_eq_getElem]

lemma getD_set_ne (l : List Level) (i j : Nat) (x d : Level)
    (h : i ≠ j) : (l.set i x).getD j d = l.getD j d := by
  simp [List.getD_eq_getElem?_getD, List.getElem?_set_ne h]

lemma getD_concat_length (l : List Level) (x d : Level) :
    (l ++ [x]).getD l.length d = x := by
  simp [List.getD_eq_getElem?_getD, List.getElem?_concat_length]

/-! ### C1 -/

/-- C1: for the default gate cell, `enabled(s)` holds exactly when `s`
is at or above the current gate level; after `SetLevel X` exactly the
severities at or above `X` are enabled; and a call whose severity the
gate rejects produces no emission on any sink of the core. -/
theorem C1_level_gate (st : LogState) (core : ZapLogger) (X s : Level)
    (msg : String) (f : List Field)
    (href : core.gateRef = st.loglv) (hlen : st.loglv < st.store.length) :
    (atomicEnabled st core.gateRef s ↔ GetLevel st ≤ s) ∧
    (atomicEnabled (SetLevel X st) core.gateRef s ↔ X ≤ s) ∧
    (¬ atomicEnabled st core.gateRef s → zlog st core s msg f = []) := by
  refine ⟨?_, ?_, ?_⟩
  · rw [href]; exact Iff.rfl
  · unfold atomicEnabled atomicGet SetLevel
    rw [href]
    simp only
    rw [getD_set_self _ _ _ _ hlen]
  · intro h
    unfold zlog
    simp [h]

/-- C1 witness: the initial state with gate Debug, then raised to Warn. -/
theorem C1_level_gate_witness :
    ((atomicEnabled initState initState.defaultZapLogger.infoLogger.gateRef
        InfoLevel ↔ GetLevel initState ≤ InfoLevel) ∧
     (atomicEnabled (SetLevel WarnLevel initState)
        initState.defaultZapLogger.infoLogger.gateRef InfoLevel ↔
        WarnLevel ≤ InfoLevel) ∧
     (¬ atomicEnabled initState initState.defaultZapLogger.infoLogger.gateRef
        InfoLevel →
      zlog initState initState.defaultZapLogger.infoLogger InfoLevel "m" [] =
        [])) :=
  C1_level_gate initState initState.defaultZapLogger.infoLogger WarnLevel
    InfoLevel "m" [] rfl (by decide)

/-! ### Supporting lemmas on `Configure` and `NewLogEntry` state -/

lemma Configure_store (c : Config) (fs : FS) (st : LogState) :
    (Configure c fs st).state.store = st.store ++ [c.Level] := by
  by_cases hf : c.FileLoggingEnabled <;> simp [Configure, newZapLogger, hf]

lemma Configure_loglv (c : Config) (fs : FS) (st : LogState) :
    (Configure c fs st).state.loglv = st.store.length := by
  by_cases hf : c.FileLoggingEnabled <;> simp [Configure, newZapLogger, hf]

lemma Configure_gateRef_info (c : Config) (fs : FS) (st : LogState) :
    (Configure c fs st).state.defaultZapLogger.infoLogger.gateRef =
      st.store.length := by
  by_cases hf : c.FileLoggingEnabled <;> simp [Configure, newZapLogger, hf]

lemma Configure_gateRef_err (c : Config) (fs : FS) (st : LogState) :
    (Configure c fs st).state.defaultZapLogger.errorLogger.gateRef =
      st.store.length := by
  by_cases hf : c.FileLoggingEnabled <;> simp [Configure, newZapLogger, hf]

lemma NewLogEntry_store (c : Config) (fs : FS) (st : LogState) :
    (NewLogEntry c fs st).state.store = st.store ++ [c.Level] := by
  by_cases hf : c.FileLoggingEnabled <;> simp [NewLogEntry, newZapLogger, hf]

lemma NewLogEntry_loglv (c : Config) (fs : FS) (st : LogState) :
    (NewLogEntry c fs st).state.loglv = st.loglv := by
  by_cases hf : c.FileLoggingEnabled <;> simp [NewLogEntry, newZapLogger, hf]

lemma NewLogEntry_default (c : Config) (fs : FS) (st : LogState) :
    (NewLogEntry c fs st).state.defaultZapLogger = st.defaultZapLogger := by
  by_cases hf : c.FileLoggingEnabled <;> simp [NewLogEntry, newZapLogger, hf]

lemma NewLogEntry_gateRef_info (c : Config) (fs : FS) (st : LogState) :
    (NewLogEntry c fs st).entry.infoLogger.gateRef = st.store.length := by
  by_cases hf : c.FileLoggingEnabled <;> simp [NewLogEntry, newZapLogger, hf]

lemma NewLogEntry_gateRef_err (c : Config) (fs : FS) (st : LogState) :
    (NewLogEntry c fs st).entry.errorLogger.gateRef = st.store.length := by
  by_cases hf : c.FileLoggingEnabled <;> simp [NewLogEntry, newZapLogger, hf]

/-! ### C9 -/

/-- C9: after a `Configure` followed by `NewLogEntry` and `SetLevel X`,
the global get/set pair addresses the gate installed by `Configure`
(`GetLevel` reads `X`), the `NewLogEntry` logger's own gate cells still
hold its config's level on both channels, and a `WithFields` child of
the default logger shares the default's gate cell, where it observes
`X`. -/
theorem C9_setlevel_default_scope (c c2 : Config) (fs fs2 : FS)
    (st : LogState) (X : Level) (iter : Fields) :
    GetLevel (SetLevel X (NewLogEntry c2 fs2 (Configure c fs st).state).state)
      = X ∧
    atomicGet (SetLevel X (NewLogEntry c2 fs2 (Configure c fs st).state).state)
      (NewLogEntry c2 fs2 (Configure c fs st).state).entry.infoLogger.gateRef
      = c2.Level ∧
    atomicGet (SetLevel X (NewLogEntry c2 fs2 (Configure c fs st).state).state)
      (NewLogEntry c2 fs2 (Configure c fs st).state).entry.errorLogger.gateRef
      = c2.Level ∧
    ZapLogger.gateRef (LogEntry.infoLogger (WithFields (SetLevel X
        (NewLogEntry c2 fs2 (Configure c fs st).state).state) iter)) =
      ZapLogger.gateRef (LogEntry.infoLogger (LogState.defaultZapLogger
        (SetLevel X (NewLogEntry c2 fs2 (Configure c fs st).state).state))) ∧
    ZapLogger.gateRef (LogEntry.errorLogger (WithFields (SetLevel X
        (NewLogEntry c2 fs2 (Configure c fs st).state).state) iter)) =
      ZapLogger.gateRef (LogEntry.errorLogger (LogState.defaultZapLogger
        (SetLevel X (NewLogEntry c2 fs2 (Configure c fs st).state).state))) ∧
    atomicGet (SetLevel X (NewLogEntry c2 fs2 (Configure c fs st).state).state)
      (ZapLogger.gateRef (LogEntry.infoLogger (WithFields (SetLevel X
        (NewLogEntry c2 fs2 (Configure c fs st).state).state) iter))) = X := by
  have h1 := Configure_store c fs st
  have h2 := Configure_loglv c fs st
  have h3 := Configure_gateRef_info c fs st
  have h3e := Configure_gateRef_err c fs st
  have h4 := NewLogEntry_store c2 fs2 (Configure c fs st).state
  have h5 := NewLogEntry_loglv c2 fs2 (Configure c fs st).state
  have h6 := NewLogEntry_default c2 fs2 (Configure c fs st).state
  have h7 := NewLogEntry_gateRef_info c2 fs2 (Configure c fs st).state
  have h8 := NewLogEntry_gateRef_err c2 fs2 (Configure c fs st).state
  have hget : ∀ d : Level,
      ((NewLogEntry c2 fs2 (Configure c fs st).state).state.store.set
        (NewLogEntry c2 fs2 (Configure c fs st).state).state.loglv X).getD
        (NewLogEntry c2 fs2 (Configure c fs st).state).state.loglv d = X := by
    intro d
    rw [h5, h2, h4, h1]
    rw [getD_set_self]
    simp
  refine ⟨?_, ?_, ?_, rfl, rfl, ?_⟩
  · exact hget InfoLevel
  · show ((NewLogEntry c2 fs2 (Configure c fs st).state).state.store.set
        (NewLogEntry c2 fs2 (Configure c fs st).state).state.loglv X).getD
        (NewLogEntry c2 fs2 (Configure c fs st).state).entry.infoLogger.gateRef
        InfoLevel = c2.Level
    rw [h7, h5, h2, h4, h1]
    rw [getD_set_ne]
    · rw [getD_concat_length]
    · simp
  · show ((NewLogEntry c2 fs2 (Configure c fs st).state).state.store.set
        (NewLogEntry c2 fs2 (Configure c fs st).state).state.loglv X).getD
        (NewLogEntry c2 fs2 (Configure c fs st).state).entry.errorLogger.gateRef
        InfoLevel = c2.Level
    rw [h8, h5, h2, h4, h1]
    rw [getD_set_ne]
    · rw [getD_concat_length]
    · simp
  · show ((NewLogEntry c2 fs2 (Configure c fs st).state).state.store.set
        (NewLogEntry c2 fs2 (Configure c fs st).state).state.loglv X).getD
        (ZapLogger.gateRef (LogEntry.infoLogger (LogState.defaultZapLogger
          (NewLogEntry c2 fs2 (Configure c fs st).state).state))) InfoLevel = X
    rw [h6, h3, ← h2, ← h5]
    exact hget InfoLevel

/-! ### C3 -/

/-- C3: with file logging disabled, the default logger installed by
`Configure` has exactly the console sinks (console logging forced on
even if the flag was left false), console sinks are never rotating
files, and `NewLogEntry` attaches exactly stdout/stderr. -/
theorem C3_console_only (config : Config) (fs : FS) (st : LogState)
    (h : config.FileLoggingEnabled = false) :
    (Configure config fs st).state.defaultZapLogger.infoLogger.sinks =
      [consoleInfoSink config] ∧
    (Configure config fs st).state.defaultZapLogger.errorLogger.sinks =
      [consoleErrSink config] ∧
    (∀ p : String, Sink.file p ≠ consoleInfoSink config) ∧
    (∀ p : String, Sink.file p ≠ consoleErrSink config) ∧
    (NewLogEntry config fs st).entry.infoLogger.sinks = [Sink.stdout] ∧
    (NewLogEntry config fs st).entry.errorLogger.sinks = [Sink.stderr] := by
  refine ⟨?_, ?_, ?_, ?_, ?_, ?_⟩ <;>
  · cases hi : config.ConsoleInfoStream <;>
      cases he : config.ConsoleErrorStream <;>
        simp [Configure, NewLogEntry, newZapLogger, consoleInfoSink,
          consoleErrSink, h, hi, he]

/-- C3 witness: the default config (file logging and console logging
both left false). -/
theorem C3_console_only_witness :
    ZapLogger.sinks (LogEntry.infoLogger (LogState.defaultZapLogger
        (ConfigureOut.state (Configure defaultConfig (fun _ => none)
          initState)))) = [consoleInfoSink defaultConfig] ∧
    ZapLogger.sinks (LogEntry.errorLogger (LogState.defaultZapLogger
        (ConfigureOut.state (Configure defaultConfig (fun _ => none)
          initState)))) = [consoleErrSink defaultConfig] ∧
    (∀ p : String, Sink.file p ≠ consoleInfoSink defaultConfig) ∧
    (∀ p : String, Sink.file p ≠ consoleErrSink defaultConfig) ∧
    ZapLogger.sinks (LogEntry.infoLogger (NewLogEntryOut.entry
        (NewLogEntry defaultConfig (fun _ => none) initState))) =
      [Sink.stdout] ∧
    ZapLogger.sinks (LogEntry.errorLogger (NewLogEntryOut.entry
        (NewLogEntry defaultConfig (fun _ => none) initState))) =
      [Sink.stderr] :=
  C3_console_only defaultConfig (fun _ => none) initState rfl

/-! ### C7 -/

/-- The filesystem oracle on which every directory creation succeeds. -/
def okFS : FS := fun _ => none

/-- The filesystem oracle on which every directory creation fails. -/
def failFS : FS := fun _ => some "permission denied"

/-- A file-logging configuration with base name "app". -/
def fileCfg : Config :=
  { defaultConfig with
    FileLoggingEnabled := true
    Directory := "logs"
    Filename := "app" }

/-- C7 counterexample: for the configured base filename "app.log" the
claim predicts a file named "app.log_info.log", but the code strips the
".log" substring first and produces "app_info.log". -/
theorem C7_counterexample :
    getNameByLogLevel "app.log" InfoLevel = "app_info.log" ∧
    getNameByLogLevel "app.log" InfoLevel ≠ "app.log" ++ "_info.log" := by
  constructor
  · rfl
  · decide

/-- C7 amended: the two channels write to files named
`strip(F) ++ "_info.log"` and `strip(F) ++ "_error.log"` inside the
configured directory — where `strip(F)` removes every ".log" occurrence
from the configured filename `F` — and to `info.log` / `error.log` when
no base name is given; the info channel gets the info file and the error
channel the error file. -/
theorem C7_file_names (F : String) (config : Config) (fs : FS)
    (st : LogState) (hfile : config.FileLoggingEnabled = true)
    (hfs : fs config.Directory = none) :
    (getNameByLogLevel F InfoLevel =
      if F = "" then "info.log" else stripDotLogS F ++ "_info.log") ∧
    (getNameByLogLevel F ErrorLevel =
      if F = "" then "error.log" else stripDotLogS F ++ "_error.log") ∧
    Sink.file (pathJoin config.Directory
        (getNameByLogLevel config.Filename InfoLevel)) ∈
      ZapLogger.sinks (LogEntry.infoLogger (LogState.defaultZapLogger
        (ConfigureOut.state (Configure config fs st)))) ∧
    Sink.file (pathJoin config.Directory
        (getNameByLogLevel config.Filename ErrorLevel)) ∈
      ZapLogger.sinks (LogEntry.errorLogger (LogState.defaultZapLogger
        (ConfigureOut.state (Configure config fs st)))) := by
  refine ⟨?_, ?_, ?_, ?_⟩
  · by_cases hF : F = "" <;>
      simp [getNameByLogLevel, hF, InfoLevel, ErrorLevel, String.append_assoc]
  · by_cases hF : F = "" <;>
      simp [getNameByLogLevel, hF, InfoLevel, ErrorLevel, String.append_assoc]
  · by_cases hc : config.ConsoleLoggingEnabled <;>
      simp [Configure, newZapLogger, newRollingFile, hfile, hfs, hc]
  · by_cases hc : config.ConsoleLoggingEnabled <;>
      simp [Configure, newZapLogger, newRollingFile, hfile, hfs, hc]

/-- C7 witness: a file-logging config with base name "app" and a
directory the filesystem can create. -/
theorem C7_file_names_witness :
    (getNameByLogLevel "app" InfoLevel =
      if "app" = "" then "info.log"
      else stripDotLogS "app" ++ "_info.log") ∧
    (getNameByLogLevel "app" ErrorLevel =
      if "app" = "" then "error.log"
      else stripDotLogS "app" ++ "_error.log") ∧
    Sink.file (pathJoin fileCfg.Directory
        (getNameByLogLevel fileCfg.Filename InfoLevel)) ∈
      ZapLogger.sinks (LogEntry.infoLogger (LogState.defaultZapLogger
        (ConfigureOut.state (Configure fileCfg okFS initState)))) ∧
    Sink.file (pathJoin fileCfg.Directory
        (getNameByLogLevel fileCfg.Filename ErrorLevel)) ∈
      ZapLogger.sinks (LogEntry.errorLogger (LogState.defaultZapLogger
        (ConfigureOut.state (Configure fileCfg okFS initState)))) :=
  C7_file_names "app" fileCfg okFS initState rfl rfl

/-! ### C2 -/

lemma filter_zlog_msg_self (st : LogState) (zl : ZapLogger) (sev : Level)
    (msg : String) (cf : List Field) :
    (zlog st zl sev msg cf).filter (fun em => em.2.msg == msg) =
      zlog st zl sev msg cf := by
  unfold zlog
  split
  · apply List.filter_eq_self.mpr
    intro a ha
    simp only [List.mem_map] at ha
    obtain ⟨s, _, rfl⟩ := ha
    simp
  · rfl

lemma filter_zlog_msg_other (st : LogState) (zl : ZapLogger) (sev : Level)
    (msg msg2 : String) (cf : List Field) (h : (msg == msg2) = false) :
    (zlog st zl sev msg cf).filter (fun em => em.2.msg == msg2) = [] := by
  unfold zlog
  split
  · apply List.filter_eq_nil_iff.mpr
    intro a ha
    simp only [List.mem_map] at ha
    obtain ⟨s, _, rfl⟩ := ha
    simp [h]
  · rfl

/-- C2 counterexample: with file logging enabled and a directory the
filesystem refuses to create, `Configure` nevertheless returns nil — the
construction error is not reported through the returned error — and the
best-effort self-log entry is emitted twice, not once. -/
theorem C2_counterexample :
    failFS fileCfg.Directory = some "permission denied" ∧
    (Configure fileCfg failFS initState).err = none ∧
    ((Configure fileCfg failFS initState).emissions.filter
      (fun em => em.2.msg == "failed create log directory")).length = 2 := by
  refine ⟨rfl, rfl, ?_⟩
  rfl

/-- C2 amended: on a log-directory creation failure `Configure` reports
the failure via best-effort self-log entries through the old default
logger — once per channel's rolling-file construction, i.e. twice — and
always returns nil rather than the construction error; it still installs
a new default logger (whose file sinks are the nil write syncer on that
failure) wired to the global gate, so the registry is never
logger-less. -/
theorem C2_configure_error_reporting (config : Config) (fs : FS)
    (st : LogState) (e : String)
    (hfile : config.FileLoggingEnabled = true)
    (hfs : fs config.Directory = some e) :
    (Configure config fs st).err = none ∧
    (Configure config fs st).emissions.filter
        (fun em => em.2.msg == "failed create log directory") =
      Errorv st "failed create log directory"
        [zapAny "error" (GoValue.str e),
         zapAny "path" (GoValue.str config.Directory)] ++
      Errorv st "failed create log directory"
        [zapAny "error" (GoValue.str e),
         zapAny "path" (GoValue.str config.Directory)] ∧
    Sink.nilSink ∈ ZapLogger.sinks (LogEntry.infoLogger
      (LogState.defaultZapLogger (ConfigureOut.state
        (Configure config fs st)))) ∧
    Sink.nilSink ∈ ZapLogger.sinks (LogEntry.errorLogger
      (LogState.defaultZapLogger (ConfigureOut.state
        (Configure config fs st)))) ∧
    ZapLogger.gateRef (LogEntry.infoLogger (LogState.defaultZapLogger
      (ConfigureOut.state (Configure config fs st)))) =
      LogState.loglv (ConfigureOut.state (Configure config fs st)) := by
  refine ⟨rfl, ?_, ?_, ?_, ?_⟩
  · show (Configure config fs st).emissions.filter
        (fun em => em.2.msg == "failed create log directory") = _
    simp only [Configure, hfile, if_true, newRollingFile, hfs, Infov, Errorv]
    simp [List.filter_append, filter_zlog_msg_self, filter_zlog_msg_other]
  · by_cases hc : config.ConsoleLoggingEnabled <;>
      simp [Configure, newZapLogger, newRollingFile, hfile, hfs, hc]
  · by_cases hc : config.ConsoleLoggingEnabled <;>
      simp [Configure, newZapLogger, newRollingFile, hfile, hfs, hc]
  · rw [Configure_gateRef_info, Configure_loglv]

/-- C2 witness: the concrete failing configuration. -/
theorem C2_configure_error_reporting_witness :
    (Configure fileCfg failFS initState).err = none ∧
    (Configure fileCfg failFS initState).emissions.filter
        (fun em => em.2.msg == "failed create log directory") =
      Errorv initState "failed create log directory"
        [zapAny "error" (GoValue.str "permission denied"),
         zapAny "path" (GoValue.str fileCfg.Directory)] ++
      Errorv initState "failed create log directory"
        [zapAny "error" (GoValue.str "permission denied"),
         zapAny "path" (GoValue.str fileCfg.Directory)] ∧
    Sink.nilSink ∈ ZapLogger.sinks (LogEntry.infoLogger
      (LogState.defaultZapLogger (ConfigureOut.state
        (Configure fileCfg failFS initState)))) ∧
    Sink.nilSink ∈ ZapLogger.sinks (LogEntry.errorLogger
      (LogState.defaultZapLogger (ConfigureOut.state
        (Configure fileCfg failFS initState)))) ∧
    ZapLogger.gateRef (LogEntry.infoLogger (LogState.defaultZapLogger
      (ConfigureOut.state (Configure fileCfg failFS initState)))) =
      LogState.loglv (ConfigureOut.state (Configure fileCfg failFS initState)) :=
  C2_configure_error_reporting fileCfg failFS initState "permission denied"
    rfl rfl

/-! ### C4 -/

/-- C4: `WithFields` on any parent returns a new LogEntry sharing the
parent's gate cell, sinks and encoder on both channels; a `withField`
child (`newLogEntry parent` with the one-entry map) has the parent's
field set extended by exactly the binding; the child's emitted records
carry the bound field; and the parent — unchanged, it is never mutated —
emits records that do not contain that field as long as it is in neither
the parent's field set nor the call's own fields. -/
theorem C4_with_field_child (st : LogState) (parent : LogEntry)
    (k v : String) (iter : Fields) (s : Level) (msg : String)
    (cf : List Field)
    (hmem : (k, GoValue.str v) ∉ parent.infoLogger.boundFields ++ cf) :
    ZapLogger.gateRef (LogEntry.infoLogger (LogEntry.WithFields parent iter))
      = parent.infoLogger.gateRef ∧
    ZapLogger.sinks (LogEntry.infoLogger (LogEntry.WithFields parent iter))
      = parent.infoLogger.sinks ∧
    ZapLogger.enc (LogEntry.infoLogger (LogEntry.WithFields parent iter))
      = parent.infoLogger.enc ∧
    ZapLogger.gateRef (LogEntry.errorLogger (LogEntry.WithFields parent iter))
      = parent.errorLogger.gateRef ∧
    ZapLogger.sinks (LogEntry.errorLogger (LogEntry.WithFields parent iter))
      = parent.errorLogger.sinks ∧
    ZapLogger.enc (LogEntry.errorLogger (LogEntry.WithFields parent iter))
      = parent.errorLogger.enc ∧
    ZapLogger.boundFields (LogEntry.infoLogger
        (newLogEntry parent [(k, GoValue.str v)]))
      = parent.infoLogger.boundFields ++ [(k, GoValue.str v)] ∧
    (∀ em ∈ zlog st (LogEntry.infoLogger
        (newLogEntry parent [(k, GoValue.str v)])) s msg cf,
      (k, GoValue.str v) ∈ em.2.fields) ∧
    (∀ em ∈ zlog st parent.infoLogger s msg cf,
      (k, GoValue.str v) ∉ em.2.fields) := by
  refine ⟨rfl, rfl, rfl, rfl, rfl, rfl, rfl, ?_, ?_⟩
  · intro em hem
    unfold zlog at hem
    split at hem
    · simp only [List.mem_map] at hem
      obtain ⟨sk, _, rfl⟩ := hem
      simp [newLogEntry, zWith, convertFields, zapAny]
    · simp at hem
  · intro em hem
    unfold zlog at hem
    split at hem
    · simp only [List.mem_map] at hem
      obtain ⟨sk, _, rfl⟩ := hem
      exact hmem
    · simp at hem

/-- C4 witness: the initial default logger as parent, binding "k" to
"v". -/
theorem C4_with_field_child_witness :
    ZapLogger.gateRef (LogEntry.infoLogger (LogEntry.WithFields
        initState.defaultZapLogger [("a", GoValue.int 1)]))
      = ZapLogger.gateRef (LogEntry.infoLogger initState.defaultZapLogger) ∧
    ZapLogger.sinks (LogEntry.infoLogger (LogEntry.WithFields
        initState.defaultZapLogger [("a", GoValue.int 1)]))
      = ZapLogger.sinks (LogEntry.infoLogger initState.defaultZapLogger) ∧
    ZapLogger.enc (LogEntry.infoLogger (LogEntry.WithFields
        initState.defaultZapLogger [("a", GoValue.int 1)]))
      = ZapLogger.enc (LogEntry.infoLogger initState.defaultZapLogger) ∧
    ZapLogger.gateRef (LogEntry.errorLogger (LogEntry.WithFields
        initState.defaultZapLogger [("a", GoValue.int 1)]))
      = ZapLogger.gateRef (LogEntry.errorLogger initState.defaultZapLogger) ∧
    ZapLogger.sinks (LogEntry.errorLogger (LogEntry.WithFields
        initState.defaultZapLogger [("a", GoValue.int 1)]))
      = ZapLogger.sinks (LogEntry.errorLogger initState.defaultZapLogger) ∧
    ZapLogger.enc (LogEntry.errorLogger (LogEntry.WithFields
        initState.defaultZapLogger [("a", GoValue.int 1)]))
      = ZapLogger.enc (LogEntry.errorLogger initState.defaultZapLogger) ∧
    ZapLogger.boundFields (LogEntry.infoLogger
        (newLogEntry initState.defaultZapLogger [("k", GoValue.str "v")]))
      = ZapLogger.boundFields (LogEntry.infoLogger initState.defaultZapLogger)
          ++ [("k", GoValue.str "v")] ∧
    (∀ em ∈ zlog initState (LogEntry.infoLogger
        (newLogEntry initState.defaultZapLogger [("k", GoValue.str "v")]))
        InfoLevel "m" [],
      ("k", GoValue.str "v") ∈ em.2.fields) ∧
    (∀ em ∈ zlog initState
        (LogEntry.infoLogger initState.defaultZapLogger) InfoLevel "m" [],
      ("k", GoValue.str "v") ∉ em.2.fields) :=
  C4_with_field_child initState initState.defaultZapLogger "k" "v"
    [("a", GoValue.int 1)] InfoLevel "m" []
    (by simp [initState, newZapLogger, defaultConfig])

/-! ### C5 -/

/-- C5 counterexample: `[("b",2),("a",1)]` is a legal Go iteration of
the map bound as `a` then `b`, and under it the child's emitted record
renders the two fields of the single `withFields` call in iteration
order, not binding order. -/
theorem C5_counterexample :
    isMapIterOf [("b", GoValue.int 2), ("a", GoValue.int 1)]
      [("a", GoValue.int 1), ("b", GoValue.int 2)] ∧
    zlog initState (LogEntry.infoLogger (LogEntry.WithFields
        initState.defaultZapLogger
        [("b", GoValue.int 2), ("a", GoValue.int 1)])) InfoLevel "m" [] =
      [(Sink.stdout,
        ⟨InfoLevel, "m", [("b", GoValue.int 2), ("a", GoValue.int 1)]⟩)] ∧
    [("b", GoValue.int 2), ("a", GoValue.int 1)] ≠
      [("a", GoValue.int 1), ("b", GoValue.int 2)] := by
  refine ⟨List.Perm.swap _ _ _, rfl, ?_⟩
  simp

/-- C5 amended: fields bound by chained with-calls appear grouped in
binding-call order — the parent's field set, then the first call's
fields, then the second call's, then the call-site fields — but within
one `withFields` call the map's entries appear in the unspecified
map-iteration order, a permutation of that call's field set; a
single-field binding is therefore rendered exactly in binding order. -/
theorem C5_binding_order (le : LogEntry) (f1 f2 iter1 iter2 : Fields)
    (st : LogState) (s : Level) (msg : String) (cf : List Field)
    (h1 : isMapIterOf iter1 f1) (h2 : isMapIterOf iter2 f2) :
    ZapLogger.boundFields (LogEntry.infoLogger
        ((le.WithFields iter1).WithFields iter2)) =
      (le.infoLogger.boundFields ++ convertFields iter1) ++
        convertFields iter2 ∧
    List.Perm (convertFields iter1) (convertFields f1) ∧
    List.Perm (convertFields iter2) (convertFields f2) ∧
    (∀ k v, convertFields [(k, v)] = [(k, v)]) ∧
    (∀ em ∈ zlog st (LogEntry.infoLogger
        ((le.WithFields iter1).WithFields iter2)) s msg cf,
      em.2.fields =
        ((le.infoLogger.boundFields ++ convertFields iter1) ++
          convertFields iter2) ++ cf) := by
  refine ⟨rfl, List.Perm.map _ h1, List.Perm.map _ h2,
    fun k v => rfl, ?_⟩
  intro em hem
  unfold zlog at hem
  split at hem
  · simp only [List.mem_map] at hem
    obtain ⟨sk, _, rfl⟩ := hem
    rfl
  · simp at hem

/-- C5 witness: one single-field call then a two-field call iterated in
swapped order. -/
theorem C5_binding_order_witness :
    ZapLogger.boundFields (LogEntry.infoLogger
        ((LogEntry.WithFields initState.defaultZapLogger
            [("a", GoValue.int 1)]).WithFields
          [("c", GoValue.int 3), ("b", GoValue.int 2)])) =
      (ZapLogger.boundFields (LogEntry.infoLogger
          initState.defaultZapLogger) ++
        convertFields [("a", GoValue.int 1)]) ++
        convertFields [("c", GoValue.int 3), ("b", GoValue.int 2)] ∧
    List.Perm (convertFields [("a", GoValue.int 1)])
      (convertFields [("a", GoValue.int 1)]) ∧
    List.Perm (convertFields [("c", GoValue.int 3), ("b", GoValue.int 2)])
      (convertFields [("b", GoValue.int 2), ("c", GoValue.int 3)]) ∧
    (∀ k v, convertFields [(k, v)] = [(k, v)]) ∧
    (∀ em ∈ zlog initState (LogEntry.infoLogger
        ((LogEntry.WithFields initState.defaultZapLogger
            [("a", GoValue.int 1)]).WithFields
          [("c", GoValue.int 3), ("b", GoValue.int 2)])) InfoLevel "m" [],
      em.2.fields =
        ((ZapLogger.boundFields (LogEntry.infoLogger
              initState.defaultZapLogger) ++
            convertFields [("a", GoValue.int 1)]) ++
          convertFields [("c", GoValue.int 3), ("b", GoValue.int 2)]) ++
          []) :=
  C5_binding_order initState.defaultZapLogger [("a", GoValue.int 1)]
    [("b", GoValue.int 2), ("c", GoValue.int 3)] [("a", GoValue.int 1)]
    [("c", GoValue.int 3), ("b", GoValue.int 2)] initState InfoLevel "m" []
    (List.Perm.refl _) (List.Perm.swap _ _ _)

/-! ### C6 -/

/-- C6 (code bug): the printf-style method `LogEntry.Debugf` passes the
variadic argument slice as a single formatting argument instead of
spreading it, so for the same logger state, template and arguments it
produces a record whose message differs from the package-level `Debugf`
— which does format the template with the positional arguments. -/
theorem C6_debugf_divergence :
    DebugfMsg "%d-%d" [GoValue.int 1, GoValue.int 2] = "1-2" ∧
    LogEntry.DebugfMsg "%d-%d" [GoValue.int 1, GoValue.int 2] =
      "[1 2]-%!d(MISSING)" ∧
    LogEntry.DebugfMsg "%d-%d" [GoValue.int 1, GoValue.int 2] ≠
      DebugfMsg "%d-%d" [GoValue.int 1, GoValue.int 2] ∧
    List.map (fun em => Record.msg em.2)
        (LogEntry.Debugf initState initState.defaultZapLogger "%d-%d"
          [GoValue.int 1, GoValue.int 2]) = ["[1 2]-%!d(MISSING)"] ∧
    List.map (fun em => Record.msg em.2)
        (Debugf initState "%d-%d" [GoValue.int 1, GoValue.int 2]) =
      ["1-2"] := by
  refine ⟨rfl, rfl, ?_, rfl, rfl⟩
  decide

/-! ### C8 -/

/-- C8: retrieving from a context derived by attaching a Logger yields
exactly that Logger, and retrieving from a context carrying no attached
Logger yields the current default Logger. -/
theorem C8_context_roundtrip (st : LogState) (le : LogEntry)
    (ctx : GoContext)
    (h : ∀ x, ctxValue ctx loggerKey ≠ some (CtxVal.logger x)) :
    FromContext st (LogEntry.ContextWithLogger le ctx) = le ∧
    FromContext st ctx = st.defaultZapLogger := by
  constructor
  · rfl
  · unfold FromContext
    cases hv : ctxValue ctx loggerKey with
    | none => rfl
    | some v =>
      cases v with
      | logger x => exact absurd hv (h x)
      | other t => rfl

/-- C8 witness: attach a field-bound child to the empty context. -/
theorem C8_context_roundtrip_witness :
    FromContext initState (LogEntry.ContextWithLogger
        (WithField initState "k" "v") []) = WithField initState "k" "v" ∧
    FromContext initState [] = initState.defaultZapLogger :=
  C8_context_roundtrip initState (WithField initState "k" "v") []
    (by simp [ctxValue])

/-! ### C10 -/

/-- C10: for any level outside the six switch cases (such as DPanic),
`AtLevel` does not log at that level: it emits a Warn record with
message "Logging at unkown level" carrying the level as a field, then a
Warn record with the given message — both on the default error
channel's sinks, both at Warn severity. -/
theorem C10_atlevel_unknown (st : LogState) (lvl : Level) (msg : String)
    (fields : List Field)
    (h1 : lvl ≠ DebugLevel) (h2 : lvl ≠ PanicLevel) (h3 : lvl ≠ ErrorLevel)
    (h4 : lvl ≠ WarnLevel) (h5 : lvl ≠ InfoLevel) (h6 : lvl ≠ FatalLevel) :
    AtLevel st lvl msg fields =
      Warnv st "Logging at unkown level" [levelField lvl] ++
        Warnv st msg fields ∧
    (∀ em ∈ AtLevel st lvl msg fields,
      Record.sev em.2 = WarnLevel ∧ Record.sev em.2 ≠ lvl ∧
      em.1 ∈ ZapLogger.sinks (LogEntry.errorLogger st.defaultZapLogger)) := by
  have hA : AtLevel st lvl msg fields =
      Warnv st "Logging at unkown level" [levelField lvl] ++
        Warnv st msg fields := by
    unfold AtLevel
    simp [h1, h2, h3, h4, h5, h6]
  refine ⟨hA, ?_⟩
  intro em hem
  rw [hA] at hem
  rcases List.mem_append.mp hem with hm | hm <;>
  · unfold Warnv zlog at hm
    split at hm
    · simp only [List.mem_map] at hm
      obtain ⟨sk, hsk, rfl⟩ := hm
      exact ⟨rfl, Ne.symm h4, hsk⟩
    · simp at hm

/-- C10 witness: DPanicLevel at the initial state. -/
theorem C10_atlevel_unknown_witness :
    AtLevel initState DPanicLevel "m" [] =
      Warnv initState "Logging at unkown level" [levelField DPanicLevel] ++
        Warnv initState "m" [] ∧
    (∀ em ∈ AtLevel initState DPanicLevel "m" [],
      Record.sev em.2 = WarnLevel ∧ Record.sev em.2 ≠ DPanicLevel ∧
      em.1 ∈ ZapLogger.sinks (LogEntry.errorLogger
        initState.defaultZapLogger)) :=
  C10_atlevel_unknown initState DPanicLevel "m" [] (by decide) (by decide)
    (by decide) (by decide) (by decide) (by decide)

end LogFacade
